import Mathlib

/-!
Verification of the `arr_tag_move` relocation scripts (`move_radarr.py`,
`move_sonarr.py`) against their specification.

The scripts are shallowly embedded: Python dicts fetched from the API become
records, the per-run side effects (HTTP GETs and PUTs) become an explicit
trace of events, and the Python `TypeError` raised by `label in None` becomes
an explicit crash result.  Machine behaviour that the claims speak about —
classification of entries, construction of update bodies, abort conditions,
ordering of API calls — is reproduced faithfully from the source.
-/

namespace ArrTagMove

/-- Python substring test `needle in haystack` on lists of characters:
true iff `n` occurs contiguously inside `h` (the empty list occurs in
everything). -/
def hasInfix (n : List Char) : List Char → Bool
  | [] => n.isEmpty
  | c :: t => n.isPrefixOf (c :: t) || hasInfix n t

/-- Python substring test `needle in haystack` on strings
(`args.root in movie['rootFolderPath']`). -/
def strContains (needle haystack : String) : Bool :=
  hasInfix needle.data haystack.data

/-- One tag record as returned by `GET /tag`: `{id, label}`. -/
structure Tag where
  id : Nat
  label : String
deriving DecidableEq

/-- One root-folder record as returned by `GET /rootfolder`: `{id, path}`. -/
structure RootFolder where
  id : Nat
  path : String
deriving DecidableEq

/-- One movie/series record as returned by `GET /movie` / `GET /series`.
`tags` is optional because the scripts read it with
`movie.get('tags', [])`; `rootFolderId` is optional because the update
code writes the key whether or not the fetched record had it. -/
structure Entry where
  id : Nat
  title : String
  rootFolderPath : String
  rootFolderId : Option Nat
  path : String
  tags : Option (List Nat)
deriving DecidableEq

/-- Insert one `(id, label)` pair into a Python-dict association list:
an existing key keeps its position and gets the new value, a new key is
appended (Python 3.7+ dict insertion-order semantics). -/
def dictInsert (acc : List (Nat × String)) (p : Nat × String) : List (Nat × String) :=
  if acc.any (fun q => q.1 == p.1) then
    acc.map (fun q => if q.1 == p.1 then (q.1, p.2) else q)
  else acc ++ [p]

/-- `get_tags`: `{tag['id']: tag['label'] for tag in response.json()}` —
the items of the dict built from the tag records, in dict order. -/
def get_tags_dict (l : List Tag) : List (Nat × String) :=
  l.foldl (fun acc t => dictInsert acc (t.id, t.label)) []

/-- `tag_id = next((id for id, label in tags.items() if label == args.tag), None)` —
the id of the FIRST tag whose label equals the requested name. -/
def resolvedTagId (l : List Tag) (name : String) : Option Nat :=
  ((get_tags_dict l).find? (fun p => p.2 == name)).map (fun p => p.1)

/-- `ignored_tag_ids = [id for id, label in tags.items() if label in args.ignored_tags]`. -/
def resolvedIgnoredIds (l : List Tag) (names : List String) : List Nat :=
  ((get_tags_dict l).filter (fun p => names.contains p.2)).map (fun p => p.1)

/-- `next((x for x in root_folders if x['path'] == args.root), None)` is not `None`. -/
def rootExists (folders : List RootFolder) (path : String) : Bool :=
  folders.any (fun f => f.path == path)

/-- `if not args.test or movie['title'] == args.test:` — Python truthiness:
`not args.test` is true when the option is absent (`None`) AND when it is
the empty string. -/
def passesTestFilter (test : Option String) (title : String) : Bool :=
  match test with
  | none => true
  | some t => t == "" || title == t

/-- The four per-entry outcomes decided by the `if/elif/elif/else` chain in
`main` (lines 119–131 of either script). -/
inductive Outcome where
  | alreadyPlaced
  | excluded
  | eligible
  | untagged
deriving DecidableEq

/-- A PUT request body plus its `moveFiles` query parameter: the full entry
record, as mutated by `update_movie_root_folder` / `update_series_root_folder`. -/
structure UpdateCall where
  entry : Entry
  moveFiles : Bool
deriving DecidableEq

/-- One API interaction, in the order the scripts perform them. -/
inductive ApiEvent where
  | getEntries
  | getTags
  | getRootFolders
  | putEntry (u : UpdateCall)
deriving DecidableEq

/-- How a run ends: a Python `TypeError` crash (no `--ignore-tag` supplied),
one of the three early returns in `main`, or normal completion. -/
inductive RunResult where
  | crashedTypeError
  | abortedTagNotFound
  | abortedIgnoredTags
  | abortedRootNotFound
  | completed
deriving DecidableEq

/-- The observable behaviour of one run: the API-call trace, the list of
entries actually classified (with their outcome), and how the run ended. -/
structure RunOutcome where
  trace : List ApiEvent
  visits : List (Entry × Outcome)
  result : RunResult
deriving DecidableEq

/-- The PUT calls of a run, in order. -/
def putsOf (o : RunOutcome) : List UpdateCall :=
  o.trace.filterMap (fun e => match e with
    | .putEntry u => some u
    | _ => none)

/-- The command-line inputs relevant to the logic (`--url`/`--api` only
configure transport). `ignoredTags = none` models `--ignore-tag` absent,
in which case argparse leaves `args.ignored_tags = None`. -/
structure Args where
  tag : String
  ignoredTags : Option (List String)
  root : String
  test : Option String
deriving DecidableEq

/-- The API state observed by one run: the responses to the three GETs. -/
structure ApiState where
  entries : List Entry
  tags : List Tag
  rootFolders : List RootFolder
deriving DecidableEq

namespace Radarr

/-- `find_tag_root_folder_id` (move_radarr.py lines 70–75): first root folder
whose path equals the requested path; the `tag_name` argument is unused,
exactly as in the source. -/
def find_tag_root_folder_id (rootFolders : List RootFolder) (tagName : String)
    (newRootFolderPath : String) : Option Nat :=
  ((rootFolders.find? (fun f => f.path == newRootFolderPath)).map (fun f => f.id))

/-- `update_movie_root_folder` (lines 78–93): mutate the fetched record —
`rootFolderPath`, `rootFolderId`, `path = f"{new_root_folder_path}/{title}"` —
and PUT it with `params={'moveFiles': True}`. -/
def update_movie_root_folder (m : Entry) (newRootFolderId : Nat)
    (newRootFolderPath : String) : UpdateCall :=
  { entry := { m with
      rootFolderPath := newRootFolderPath
      rootFolderId := some newRootFolderId
      path := newRootFolderPath ++ "/" ++ m.title }
    moveFiles := true }

/-- The `if/elif/elif/else` chain of `main` (lines 118–131) on one movie:
`tags = movie.get('tags', [])`, then first-match-wins classification. -/
def classify (tagId : Nat) (ignoredTagIds : List Nat) (root : String)
    (m : Entry) : Outcome :=
  let mtags := m.tags.getD []
  if mtags.contains tagId && strContains root m.rootFolderPath then
    .alreadyPlaced
  else if 0 < (mtags.filter (fun i => ignoredTagIds.contains i)).length then
    .excluded
  else if mtags.contains tagId then
    .eligible
  else
    .untagged

/-- One loop iteration's classification, guarded by the `--test` filter
(line 116): `none` means the movie was skipped without being classified. -/
def visitEntry (test : Option String) (tagId : Nat) (ignoredTagIds : List Nat)
    (root : String) (m : Entry) : Option Outcome :=
  if passesTestFilter test m.title then
    some (classify tagId ignoredTagIds root m)
  else none

/-- The PUT a loop iteration issues, if any: only the `eligible` branch calls
`update_movie_root_folder(movie, tag_id, args.root)` — NOTE the source passes
`tag_id`, not a root-folder id, as the second argument (line 125). -/
def processEntry (test : Option String) (tagId : Nat) (ignoredTagIds : List Nat)
    (root : String) (m : Entry) : Option UpdateCall :=
  match visitEntry test tagId ignoredTagIds root m with
  | some .eligible => some (update_movie_root_folder m tagId root)
  | _ => none

/-- `main` (lines 96–131).  The three GETs happen first (movies, tags, root
folders, in that order); `ignored_tag_ids` is computed with
`label in args.ignored_tags`, which raises `TypeError` when `--ignore-tag`
was not supplied (`args.ignored_tags is None`); then the three early-return
checks; then one pass over the movie list. -/
def mainRun (args : Args) (api : ApiState) : RunOutcome :=
  let pre : List ApiEvent := [.getEntries, .getTags, .getRootFolders]
  match args.ignoredTags with
  | none => ⟨pre, [], .crashedTypeError⟩
  | some ignoredNames =>
    match resolvedTagId api.tags args.tag with
    | none => ⟨pre, [], .abortedTagNotFound⟩
    | some tagId =>
      let ignoredTagIds := resolvedIgnoredIds api.tags ignoredNames
      if ignoredTagIds.length ≠ ignoredNames.length then
        ⟨pre, [], .abortedIgnoredTags⟩
      else if rootExists api.rootFolders args.root = false then
        ⟨pre, [], .abortedRootNotFound⟩
      else
        ⟨pre ++ (api.entries.filterMap
            (processEntry args.test tagId ignoredTagIds args.root)).map .putEntry,
          api.entries.filterMap (fun m =>
            (visitEntry args.test tagId ignoredTagIds args.root m).map
              (fun o => (m, o))),
          .completed⟩

end Radarr

namespace Sonarr

/-- `find_tag_root_folder_id` (move_sonarr.py lines 70–75), identical to the
movie variant's. -/
def find_tag_root_folder_id (rootFolders : List RootFolder) (tagName : String)
    (newRootFolderPath : String) : Option Nat :=
  ((rootFolders.find? (fun f => f.path == newRootFolderPath)).map (fun f => f.id))

/-- `update_series_root_folder` (move_sonarr.py lines 78–93). -/
def update_series_root_folder (m : Entry) (newRootFolderId : Nat)
    (newRootFolderPath : String) : UpdateCall :=
  { entry := { m with
      rootFolderPath := newRootFolderPath
      rootFolderId := some newRootFolderId
      path := newRootFolderPath ++ "/" ++ m.title }
    moveFiles := true }

/-- The classification chain of move_sonarr.py `main` (lines 118–131). -/
def classify (tagId : Nat) (ignoredTagIds : List Nat) (root : String)
    (m : Entry) : Outcome :=
  let mtags := m.tags.getD []
  if mtags.contains tagId && strContains root m.rootFolderPath then
    .alreadyPlaced
  else if 0 < (mtags.filter (fun i => ignoredTagIds.contains i)).length then
    .excluded
  else if mtags.contains tagId then
    .eligible
  else
    .untagged

/-- One loop iteration's classification under the `--test` filter (line 116). -/
def visitEntry (test : Option String) (tagId : Nat) (ignoredTagIds : List Nat)
    (root : String) (m : Entry) : Option Outcome :=
  if passesTestFilter test m.title then
    some (classify tagId ignoredTagIds root m)
  else none

/-- The PUT a loop iteration issues, if any (line 125 passes `tag_id` as the
new root-folder id, as in the movie variant). -/
def processEntry (test : Option String) (tagId : Nat) (ignoredTagIds : List Nat)
    (root : String) (m : Entry) : Option UpdateCall :=
  match visitEntry test tagId ignoredTagIds root m with
  | some .eligible => some (update_series_root_folder m tagId root)
  | _ => none

/-- `main` of move_sonarr.py (lines 96–131), identical in structure to the
movie variant's. -/
def mainRun (args : Args) (api : ApiState) : RunOutcome :=
  let pre : List ApiEvent := [.getEntries, .getTags, .getRootFolders]
  match args.ignoredTags with
  | none => ⟨pre, [], .crashedTypeError⟩
  | some ignoredNames =>
    match resolvedTagId api.tags args.tag with
    | none => ⟨pre, [], .abortedTagNotFound⟩
    | some tagId =>
      let ignoredTagIds := resolvedIgnoredIds api.tags ignoredNames
      if ignoredTagIds.length ≠ ignoredNames.length then
        ⟨pre, [], .abortedIgnoredTags⟩
      else if rootExists api.rootFolders args.root = false then
        ⟨pre, [], .abortedRootNotFound⟩
      else
        ⟨pre ++ (api.entries.filterMap
            (processEntry args.test tagId ignoredTagIds args.root)).map .putEntry,
          api.entries.filterMap (fun m =>
            (visitEntry args.test tagId ignoredTagIds args.root m).map
              (fun o => (m, o))),
          .completed⟩

end Sonarr

example : strContains "/data/movies-4k" "/data/movies-4k/extra" = true := by decide

example : strContains "/data/movies-4k" "/data/movies" = false := by decide

example :
    Radarr.classify 5 [9] "/new"
      ⟨1, "Dune", "/old", none, "/old/Dune", some [5]⟩ = .eligible := by decide

/-- Extracting the PUT calls from a trace that is the three GETs followed by
the mapped update list recovers exactly the update list. -/
lemma putsOf_pre_append (l : List UpdateCall) (v : List (Entry × Outcome))
    (r : RunResult) :
    putsOf ⟨[.getEntries, .getTags, .getRootFolders] ++ l.map .putEntry, v, r⟩
      = l := by
  simp only [putsOf, List.filterMap_append]
  induction l with
  | nil => rfl
  | cons a t ih => simpa [List.filterMap_cons] using ih

/-- A trace containing only the three GETs contains no PUT calls. -/
lemma putsOf_pre (v : List (Entry × Outcome)) (r : RunResult) :
    putsOf ⟨[.getEntries, .getTags, .getRootFolders], v, r⟩ = [] := rfl

/-- Unfolding of a run of move_radarr.py in which configuration resolution
succeeds: the three GETs happen first, then one pass over the movie list
produces the visit log and the PUT calls. -/
lemma mainRun_completed (args : Args) (api : ApiState) (igs : List String)
    (tid : Nat)
    (hig : args.ignoredTags = some igs)
    (htid : resolvedTagId api.tags args.tag = some tid)
    (hlen : (resolvedIgnoredIds api.tags igs).length = igs.length)
    (hroot : rootExists api.rootFolders args.root = true) :
    Radarr.mainRun args api =
      ⟨[.getEntries, .getTags, .getRootFolders] ++
          (api.entries.filterMap (Radarr.processEntry args.test tid
            (resolvedIgnoredIds api.tags igs) args.root)).map .putEntry,
        api.entries.filterMap (fun m =>
          (Radarr.visitEntry args.test tid (resolvedIgnoredIds api.tags igs)
              args.root m).map (fun o => (m, o))),
        .completed⟩ := by
  unfold Radarr.mainRun
  rw [hig, htid]
  simp only [hlen, ne_eq, not_true_eq_false, if_false, hroot, Bool.true_eq_false,
    if_true]

/-- A PUT produced by the per-entry step carries the id of the entry it was
produced from (the update body is the fetched record with only the three
folder fields rewritten). -/
lemma processEntry_id (test : Option String) (tid : Nat) (ign : List Nat)
    (root : String) (m : Entry) (u : UpdateCall)
    (h : Radarr.processEntry test tid ign root m = some u) :
    u.entry.id = m.id := by
  unfold Radarr.processEntry at h
  cases hv : Radarr.visitEntry test tid ign root m with
  | none => rw [hv] at h; exact absurd h (by simp)
  | some o =>
    rw [hv] at h
    cases o
    · exact absurd h (by simp)
    · exact absurd h (by simp)
    · have h2 : Radarr.update_movie_root_folder m tid root = u :=
        Option.some.inj h
      rw [← h2]
      rfl
    · exact absurd h (by simp)

/-- An entry whose target-tag membership implies substring placement never
produces a PUT: the eligible branch requires the target tag, and the target
tag plus placement hits the already-placed branch first. -/
lemma processEntry_none_of_placed (test : Option String) (tid : Nat)
    (ign : List Nat) (root : String) (m : Entry)
    (h : (m.tags.getD []).contains tid = true →
      strContains root m.rootFolderPath = true) :
    Radarr.processEntry test tid ign root m = none := by
  unfold Radarr.processEntry Radarr.visitEntry Radarr.classify
  by_cases hp : passesTestFilter test m.title = true
  · rw [if_pos hp]
    by_cases hc : (m.tags.getD []).contains tid = true
    · have hc2 : tid ∈ m.tags.getD [] := by simpa using hc
      simp [hc2, h hc]
    · have hc2 : tid ∉ m.tags.getD [] := by simpa using hc
      by_cases he :
          0 < ((m.tags.getD []).filter (fun i => decide (i ∈ ign))).length <;>
        simp [hc2, he]
  · rw [if_neg hp]

/-- Restricting the PUT list of one pass to a fixed entry id is the same as
restricting the catalog to that id first, provided the per-entry step
preserves ids. -/
lemma filterMap_filter_id (f : Entry → Option UpdateCall)
    (hf : ∀ e u, f e = some u → u.entry.id = e.id) (mid : Nat)
    (l : List Entry) :
    (l.filterMap f).filter (fun u => u.entry.id == mid)
      = (l.filter (fun e => e.id == mid)).filterMap f := by
  induction l with
  | nil => rfl
  | cons a t ih =>
    rw [List.filterMap_cons, List.filter_cons]
    cases hfa : f a with
    | none =>
      by_cases hid : (a.id == mid) = true
      · rw [if_pos hid, List.filterMap_cons, hfa]
        exact ih
      · rw [if_neg hid]
        exact ih
    | some u =>
      have hu : u.entry.id = a.id := hf a u hfa
      by_cases hid : (a.id == mid) = true
      · rw [if_pos hid, List.filter_cons, List.filterMap_cons, hfa]
        rw [if_pos (by rw [hu]; exact hid)]
        rw [ih]
      · rw [if_neg hid, List.filter_cons]
        rw [if_neg (by rw [hu]; exact hid)]
        exact ih

/-- C1: for a relocated movie (tag "t" = id 5, desired root "/new" = folder
id 7), the submitted update body carries rootFolderId = 5, the TAG id: `main`
passes `tag_id` to `update_movie_root_folder`, while the root folder whose
path equals "/new" has id 7 (which `find_tag_root_folder_id` would have
returned, but is never called). -/
theorem c1_rootFolderId_is_tag_id :
    putsOf (Radarr.mainRun ⟨"t", some [], "/new", none⟩
        ⟨[⟨1, "Dune", "/old", none, "/old/Dune", some [5]⟩],
          [⟨5, "t"⟩], [⟨7, "/new"⟩]⟩)
      = [⟨⟨1, "Dune", "/new", some 5, "/new/Dune", some [5]⟩, true⟩] ∧
    Radarr.find_tag_root_folder_id [⟨7, "/new"⟩] "t" "/new" = some 7 ∧
    (5 : Nat) ≠ 7 := by
  exact ⟨rfl, rfl, by decide⟩

/-- C2: with the target tag and the root folder both resolvable but no
`--ignore-tag` values supplied (`args.ignored_tags = None`), the run crashes
with a `TypeError` (`label in None`) instead of proceeding. -/
theorem c2_no_ignore_tags_crashes :
    (Radarr.mainRun ⟨"t", none, "/r", none⟩
        ⟨[], [⟨1, "t"⟩], [⟨2, "/r"⟩]⟩).result = .crashedTypeError ∧
    resolvedTagId [⟨1, "t"⟩] "t" = some 1 ∧
    rootExists [⟨2, "/r"⟩] "/r" = true := by
  exact ⟨rfl, rfl, rfl⟩

/-- C6 counterexample: the tag name "t" matches TWO tag ids (1 and 2), yet the
run does not abort — it completes and issues an update using the first
matching id. -/
theorem c6_counterexample :
    ((get_tags_dict [⟨1, "t"⟩, ⟨2, "t"⟩]).filter (fun p => p.2 == "t")).length
        = 2 ∧
    (Radarr.mainRun ⟨"t", some [], "/new", none⟩
        ⟨[⟨1, "Dune", "/old", none, "/old/Dune", some [1]⟩],
          [⟨1, "t"⟩, ⟨2, "t"⟩], [⟨7, "/new"⟩]⟩).result = .completed ∧
    putsOf (Radarr.mainRun ⟨"t", some [], "/new", none⟩
        ⟨[⟨1, "Dune", "/old", none, "/old/Dune", some [1]⟩],
          [⟨1, "t"⟩, ⟨2, "t"⟩], [⟨7, "/new"⟩]⟩) ≠ [] := by
  refine ⟨rfl, rfl, ?_⟩
  decide

/-- C7 counterexample: with `--test ""` (present, value the empty string) a
movie titled "Dune" — a title different from the given string — is still
classified and even updated, because Python `not args.test` is true for the
empty string. -/
theorem c7_counterexample :
    Radarr.visitEntry (some "") 5 [] "/new"
        ⟨1, "Dune", "/old", none, "/old/Dune", some [5]⟩ = some .eligible ∧
    Radarr.processEntry (some "") 5 [] "/new"
        ⟨1, "Dune", "/old", none, "/old/Dune", some [5]⟩
      = some ⟨⟨1, "Dune", "/new", some 5, "/new/Dune", some [5]⟩, true⟩ ∧
    "Dune" ≠ "" := by
  exact ⟨rfl, rfl, by decide⟩

/-- C8 counterexample: an entry carrying the target tag 1 and the exclusion
tag 2, not already placed, is classified excluded (no update) by BOTH the
movie variant and the series variant — neither variant ignores exclusion
tags. -/
theorem c8_counterexample :
    Radarr.classify 1 [2] "/new"
        ⟨1, "E", "/old", none, "/old/E", some [1, 2]⟩ = .excluded ∧
    Sonarr.classify 1 [2] "/new"
        ⟨1, "E", "/old", none, "/old/E", some [1, 2]⟩ = .excluded ∧
    Radarr.processEntry none 1 [2] "/new"
        ⟨1, "E", "/old", none, "/old/E", some [1, 2]⟩ = none ∧
    Sonarr.processEntry none 1 [2] "/new"
        ⟨1, "E", "/old", none, "/old/E", some [1, 2]⟩ = none := by
  exact ⟨rfl, rfl, rfl, rfl⟩

/-- C8 amended: the two variants do not differ in classification behaviour —
classification, the test filter, the per-entry update decision, the update
body construction, the root-folder lookup and the whole run coincide. -/
theorem c8_variants_agree :
    Sonarr.classify = Radarr.classify ∧
    Sonarr.visitEntry = Radarr.visitEntry ∧
    Sonarr.processEntry = Radarr.processEntry ∧
    Sonarr.update_series_root_folder = Radarr.update_movie_root_folder ∧
    Sonarr.find_tag_root_folder_id = Radarr.find_tag_root_folder_id ∧
    Sonarr.mainRun = Radarr.mainRun := by
  exact ⟨rfl, rfl, rfl, rfl, rfl, rfl⟩

/-- C9 counterexample: the very first API action of a run is the catalog
fetch; the tag list and root-folder list that configuration resolution needs
are fetched only afterwards, so configuration is not resolved before the
catalog fetch. -/
theorem c9_counterexample :
    (Radarr.mainRun ⟨"t", some [], "/new", none⟩
        ⟨[⟨1, "Dune", "/old", none, "/old/Dune", some [5]⟩],
          [⟨5, "t"⟩], [⟨7, "/new"⟩]⟩).trace
      = [.getEntries, .getTags, .getRootFolders,
          .putEntry ⟨⟨1, "Dune", "/new", some 5, "/new/Dune", some [5]⟩, true⟩] ∧
    (ApiEvent.getEntries ≠ ApiEvent.getTags) := by
  exact ⟨rfl, by decide⟩

/-- The exclusion check `len([id for id in tags if id in ignored_tag_ids]) > 0`
holds exactly when the entry's tag set meets the exclusion id set. -/
lemma exclFilter_pos_iff (ign l : List Nat) :
    0 < (l.filter (fun i => decide (i ∈ ign))).length ↔ ∃ i ∈ l, i ∈ ign := by
  rw [List.length_pos]
  constructor
  · intro h
    obtain ⟨x, hx⟩ := List.exists_mem_of_ne_nil _ h
    rw [List.mem_filter] at hx
    exact ⟨x, hx.1, by simpa using hx.2⟩
  · rintro ⟨i, hil, hii⟩ hnil
    have hmem : i ∈ l.filter (fun i => decide (i ∈ ign)) :=
      List.mem_filter.mpr ⟨hil, by simpa using hii⟩
    rw [hnil] at hmem
    exact absurd hmem (by simp)

/-- Characterisation of the four-way `if/elif/elif/else` chain: each outcome
holds exactly when its branch condition is the first one to fire. -/
lemma classify_cases (tid : Nat) (ign : List Nat) (root : String) (m : Entry) :
    (Radarr.classify tid ign root m = .alreadyPlaced ↔
      (tid ∈ m.tags.getD [] ∧ strContains root m.rootFolderPath = true)) ∧
    (Radarr.classify tid ign root m = .excluded ↔
      (¬(tid ∈ m.tags.getD [] ∧ strContains root m.rootFolderPath = true) ∧
        ∃ i ∈ m.tags.getD [], i ∈ ign)) ∧
    (Radarr.classify tid ign root m = .eligible ↔
      (¬(tid ∈ m.tags.getD [] ∧ strContains root m.rootFolderPath = true) ∧
        ¬(∃ i ∈ m.tags.getD [], i ∈ ign) ∧ tid ∈ m.tags.getD [])) ∧
    (Radarr.classify tid ign root m = .untagged ↔
      (¬(tid ∈ m.tags.getD [] ∧ strContains root m.rootFolderPath = true) ∧
        ¬(∃ i ∈ m.tags.getD [], i ∈ ign) ∧ tid ∉ m.tags.getD [])) := by
  by_cases hb1 : tid ∈ m.tags.getD [] ∧ strContains root m.rootFolderPath = true
  · refine ⟨?_, ?_, ?_, ?_⟩ <;> simp [Radarr.classify, hb1, exclFilter_pos_iff]
  · by_cases hb2 : ∃ i ∈ m.tags.getD [], i ∈ ign
    · refine ⟨?_, ?_, ?_, ?_⟩ <;>
        simp [Radarr.classify, hb1, hb2, exclFilter_pos_iff]
    · by_cases hb3 : tid ∈ m.tags.getD []
      · have hstr : ¬ strContains root m.rootFolderPath = true :=
          fun hs => hb1 ⟨hb3, hs⟩
        refine ⟨?_, ?_, ?_, ?_⟩ <;>
          simp [Radarr.classify, hb1, hb2, hb3, hstr, exclFilter_pos_iff]
      · refine ⟨?_, ?_, ?_, ?_⟩ <;>
          simp [Radarr.classify, hb1, hb2, hb3, exclFilter_pos_iff]

/-- A pass whose per-entry step never fires produces no output. -/
lemma filterMap_none {α β : Type} (f : α → Option β) (l : List α)
    (h : ∀ a ∈ l, f a = none) : l.filterMap f = [] := by
  induction l with
  | nil => rfl
  | cons a t ih =>
    rw [List.filterMap_cons, h a (by simp)]
    exact ih (fun x hx => h x (by simp [hx]))

/-- C3: the classifier decides exactly one of the four outcomes with
precedence already-placed, excluded, eligible, untagged (first match wins);
in particular an entry `m2` that carries the target tag, sits under the
desired root, AND carries an exclusion tag is classified already-placed (not
excluded) — by both variants. -/
theorem c3_classifier_precedence
    (tid : Nat) (ign : List Nat) (root : String) (m m2 : Entry)
    (h1 : tid ∈ m2.tags.getD [])
    (h2 : strContains root m2.rootFolderPath = true)
    (h3 : ∃ i ∈ m2.tags.getD [], i ∈ ign) :
    (Radarr.classify tid ign root m = .alreadyPlaced ↔
      (tid ∈ m.tags.getD [] ∧ strContains root m.rootFolderPath = true)) ∧
    (Radarr.classify tid ign root m = .excluded ↔
      (¬(tid ∈ m.tags.getD [] ∧ strContains root m.rootFolderPath = true) ∧
        ∃ i ∈ m.tags.getD [], i ∈ ign)) ∧
    (Radarr.classify tid ign root m = .eligible ↔
      (¬(tid ∈ m.tags.getD [] ∧ strContains root m.rootFolderPath = true) ∧
        ¬(∃ i ∈ m.tags.getD [], i ∈ ign) ∧ tid ∈ m.tags.getD [])) ∧
    (Radarr.classify tid ign root m = .untagged ↔
      (¬(tid ∈ m.tags.getD [] ∧ strContains root m.rootFolderPath = true) ∧
        ¬(∃ i ∈ m.tags.getD [], i ∈ ign) ∧ tid ∉ m.tags.getD [])) ∧
    Radarr.classify tid ign root m2 = .alreadyPlaced ∧
    Sonarr.classify tid ign root m2 = .alreadyPlaced := by
  have hq := classify_cases tid ign root m
  have hm2 : Radarr.classify tid ign root m2 = .alreadyPlaced :=
    (classify_cases tid ign root m2).1.mpr ⟨h1, h2⟩
  exact ⟨hq.1, hq.2.1, hq.2.2.1, hq.2.2.2, hm2, hm2⟩

theorem c3_witness :
    Radarr.classify 1 [2] "/r" ⟨2, "B", "/r/old", none, "", some [1, 2]⟩
      = .alreadyPlaced :=
  (c3_classifier_precedence 1 [2] "/r"
      ⟨1, "A", "/x", none, "", some [1]⟩
      ⟨2, "B", "/r/old", none, "", some [1, 2]⟩
      (by decide) (by decide) (by decide)).2.2.2.2.1

/-- C7 amended: when `--test` carries a NON-empty title, exactly the entries
whose title equals it are classified and all others are skipped unclassified;
(an empty `--test` value instead disables the filter, see the
counterexample). -/
theorem c7_amended_nonempty_test
    (t : String) (tid : Nat) (ign : List Nat) (root : String) (m : Entry)
    (ht : t ≠ "") :
    Radarr.visitEntry (some t) tid ign root m
      = (if m.title = t then some (Radarr.classify tid ign root m)
          else none) := by
  unfold Radarr.visitEntry
  have h0 : (t == "") = false := by simpa using ht
  by_cases hm : m.title = t
  · have hp : passesTestFilter (some t) m.title = true := by
      simp [passesTestFilter, hm]
    rw [if_pos hp, if_pos hm]
  · have hp : ¬ passesTestFilter (some t) m.title = true := by
      simp [passesTestFilter, h0, hm]
    rw [if_neg hp, if_neg hm]

theorem c7_witness :
    Radarr.visitEntry (some "Foo") 1 [] "/r"
        ⟨1, "Bar", "/x", none, "", some []⟩ = none := by
  rw [c7_amended_nonempty_test "Foo" 1 [] "/r"
    ⟨1, "Bar", "/x", none, "", some []⟩ (by decide)]
  decide

/-- C10: an entry whose fetched record has no tags field is classified with
the empty tag set — `movie.get('tags', [])` — so it lands in the untagged
outcome, no update is issued for it, and the run does not fail on it. -/
theorem c10_missing_tags_field_untagged
    (test : Option String) (tid : Nat) (ign : List Nat) (root : String)
    (m : Entry) (hm : m.tags = none) :
    Radarr.classify tid ign root m = .untagged ∧
    Radarr.processEntry test tid ign root m = none ∧
    Radarr.visitEntry test tid ign root m
      = (if passesTestFilter test m.title = true then some .untagged
          else none) ∧
    Radarr.classify tid ign root m
      = Radarr.classify tid ign root { m with tags := some [] } := by
  have hcl : Radarr.classify tid ign root m = .untagged := by
    simp [Radarr.classify, hm]
  have hcl2 : Radarr.classify tid ign root { m with tags := some [] }
      = .untagged := by
    simp [Radarr.classify]
  refine ⟨hcl, ?_, ?_, ?_⟩
  · unfold Radarr.processEntry Radarr.visitEntry
    by_cases hp : passesTestFilter test m.title = true
    · rw [if_pos hp, hcl]
    · rw [if_neg hp]
  · unfold Radarr.visitEntry
    by_cases hp : passesTestFilter test m.title = true
    · rw [if_pos hp, if_pos hp, hcl]
    · rw [if_neg hp, if_neg hp]
  · rw [hcl, hcl2]

theorem c10_witness :
    Radarr.classify 5 [2] "/r" ⟨1, "A", "/x", none, "/x/A", none⟩
      = .untagged :=
  (c10_missing_tags_field_untagged none 5 [2] "/r"
      ⟨1, "A", "/x", none, "/x/A", none⟩ rfl).1

/-- C6 amended: tag names are resolved once, before classification; the run
aborts with no entries processed and zero update calls when the target tag
name matches NO tag (when several tags match, the first matching id is used
and the run proceeds — see the counterexample), or when the number of tag
ids whose label is among the exclusion names differs from the number of
configured exclusion names. -/
theorem c6_amended_abort_conditions
    (args : Args) (api : ApiState) (igs : List String)
    (hig : args.ignoredTags = some igs)
    (habort : resolvedTagId api.tags args.tag = none ∨
      (resolvedIgnoredIds api.tags igs).length ≠ igs.length) :
    (Radarr.mainRun args api).result ≠ .completed ∧
    putsOf (Radarr.mainRun args api) = [] ∧
    (Radarr.mainRun args api).visits = [] := by
  unfold Radarr.mainRun
  rw [hig]
  rcases habort with h | h
  · rw [h]
    exact ⟨by simp, rfl, rfl⟩
  · rcases hres : resolvedTagId api.tags args.tag with _ | tid
    · exact ⟨by simp, rfl, rfl⟩
    · dsimp only
      rw [if_pos h]
      exact ⟨by simp, rfl, rfl⟩

theorem c6_witness :
    putsOf (Radarr.mainRun ⟨"zz", some [], "/r", none⟩
      ⟨[], [⟨1, "t"⟩], [⟨2, "/r"⟩]⟩) = [] :=
  (c6_amended_abort_conditions ⟨"zz", some [], "/r", none⟩
      ⟨[], [⟨1, "t"⟩], [⟨2, "/r"⟩]⟩ [] rfl (Or.inl rfl)).2.1

/-- C9 amended: every run performs the three fetches first — the ENTRY
CATALOG first, then the tag list, then the root-folder list — configuration
is resolved from the already-fetched data, and only then is each catalog
entry visited exactly once, in catalog order, by a single pass. -/
theorem c9_amended_fetch_resolve_iterate
    (args : Args) (api : ApiState) (igs : List String) (tid : Nat)
    (hig : args.ignoredTags = some igs)
    (htid : resolvedTagId api.tags args.tag = some tid)
    (hlen : (resolvedIgnoredIds api.tags igs).length = igs.length)
    (hroot : rootExists api.rootFolders args.root = true) :
    (Radarr.mainRun args api).trace.take 3
        = [.getEntries, .getTags, .getRootFolders] ∧
    (Radarr.mainRun args api).visits
        = api.entries.filterMap (fun m =>
            (Radarr.visitEntry args.test tid (resolvedIgnoredIds api.tags igs)
                args.root m).map (fun o => (m, o))) ∧
    (Radarr.mainRun args api).trace
        = [.getEntries, .getTags, .getRootFolders] ++
            (api.entries.filterMap (Radarr.processEntry args.test tid
              (resolvedIgnoredIds api.tags igs) args.root)).map .putEntry := by
  rw [mainRun_completed args api igs tid hig htid hlen hroot]
  exact ⟨rfl, rfl, rfl⟩

theorem c9_witness :
    (Radarr.mainRun ⟨"t", some [], "/new", none⟩
        ⟨[⟨1, "Dune", "/old", none, "/old/Dune", some [5]⟩],
          [⟨5, "t"⟩], [⟨7, "/new"⟩]⟩).trace.take 3
      = [.getEntries, .getTags, .getRootFolders] :=
  (c9_amended_fetch_resolve_iterate ⟨"t", some [], "/new", none⟩
      ⟨[⟨1, "Dune", "/old", none, "/old/Dune", some [5]⟩],
        [⟨5, "t"⟩], [⟨7, "/new"⟩]⟩ [] 5 rfl rfl rfl rfl).1

/-- C4: an entry that carries the target tag and whose root-folder path
contains the desired root as a substring produces no update; consequently a
run over a catalog in which every target-tagged entry is so placed issues
zero update calls (idempotent re-run). -/
theorem c4_idempotent_already_placed
    (test : Option String) (tid : Nat) (ign : List Nat) (root : String)
    (m : Entry) (args : Args) (api : ApiState) (igs : List String) (tid2 : Nat)
    (htag : tid ∈ m.tags.getD [])
    (hplaced : strContains root m.rootFolderPath = true)
    (hig : args.ignoredTags = some igs)
    (htid2 : resolvedTagId api.tags args.tag = some tid2)
    (hall : ∀ m2 ∈ api.entries, tid2 ∈ m2.tags.getD [] →
      strContains args.root m2.rootFolderPath = true) :
    Radarr.processEntry test tid ign root m = none ∧
    putsOf (Radarr.mainRun args api) = [] := by
  constructor
  · exact processEntry_none_of_placed test tid ign root m (fun _ => hplaced)
  · unfold Radarr.mainRun
    rw [hig, htid2]
    dsimp only
    by_cases hlen : (resolvedIgnoredIds api.tags igs).length = igs.length
    · rw [if_neg (not_not_intro hlen)]
      by_cases hroot : rootExists api.rootFolders args.root = false
      · rw [if_pos hroot]
        rfl
      · rw [if_neg hroot, putsOf_pre_append]
        exact filterMap_none _ _ (fun m2 hm2 =>
          processEntry_none_of_placed _ _ _ _ _
            (fun hc => hall m2 hm2 (by simpa using hc)))
    · rw [if_pos hlen]
      rfl

theorem c4_witness :
    putsOf (Radarr.mainRun ⟨"t", some [], "/data/movies-4k", none⟩
      ⟨[⟨1, "Dune", "/data/movies-4k/extra", none,
          "/data/movies-4k/extra/Dune", some [5]⟩],
        [⟨5, "t"⟩], [⟨7, "/data/movies-4k"⟩]⟩) = [] :=
  (c4_idempotent_already_placed none 5 [] "/data/movies-4k"
      ⟨1, "Dune", "/data/movies-4k/extra", none,
        "/data/movies-4k/extra/Dune", some [5]⟩
      ⟨"t", some [], "/data/movies-4k", none⟩
      ⟨[⟨1, "Dune", "/data/movies-4k/extra", none,
          "/data/movies-4k/extra/Dune", some [5]⟩],
        [⟨5, "t"⟩], [⟨7, "/data/movies-4k"⟩]⟩
      [] 5 (by decide) (by decide) rfl rfl (by decide)).2

/-- C5: in an unfiltered run whose configuration resolves, an entry `m`
(the only catalog entry with its id) that carries the target tag, carries no
exclusion tag id, and is not already placed, receives exactly one update
call, whose path is `{root}/{title}` and whose moveFiles flag is set. -/
theorem c5_eligible_gets_one_update
    (args : Args) (api : ApiState) (igs : List String) (tid : Nat) (m : Entry)
    (htest : args.test = none)
    (hig : args.ignoredTags = some igs)
    (htid : resolvedTagId api.tags args.tag = some tid)
    (hlen : (resolvedIgnoredIds api.tags igs).length = igs.length)
    (hroot : rootExists api.rootFolders args.root = true)
    (huniq : api.entries.filter (fun e => e.id == m.id) = [m])
    (htag : tid ∈ m.tags.getD [])
    (hnoexcl : ∀ i ∈ m.tags.getD [], i ∉ resolvedIgnoredIds api.tags igs)
    (hnotplaced : strContains args.root m.rootFolderPath = false) :
    (putsOf (Radarr.mainRun args api)).filter (fun u => u.entry.id == m.id)
        = [Radarr.update_movie_root_folder m tid args.root] ∧
    (Radarr.update_movie_root_folder m tid args.root).entry.path
        = args.root ++ "/" ++ m.title ∧
    (Radarr.update_movie_root_folder m tid args.root).moveFiles = true := by
  have hpe : Radarr.processEntry args.test tid (resolvedIgnoredIds api.tags igs)
      args.root m = some (Radarr.update_movie_root_folder m tid args.root) := by
    unfold Radarr.processEntry Radarr.visitEntry
    have hp : passesTestFilter args.test m.title = true := by
      rw [htest]; rfl
    rw [if_pos hp]
    have hcl : Radarr.classify tid (resolvedIgnoredIds api.tags igs)
        args.root m = .eligible := by
      unfold Radarr.classify
      have hfil : (m.tags.getD []).filter
          (fun i => (resolvedIgnoredIds api.tags igs).contains i) = [] :=
        List.filter_eq_nil_iff.mpr (fun a ha => by simpa using hnoexcl a ha)
      have hc1 : ((m.tags.getD []).contains tid
          && strContains args.root m.rootFolderPath) = false := by
        rw [hnotplaced]; simp
      have hc1n : ¬ ((m.tags.getD []).contains tid
          && strContains args.root m.rootFolderPath) = true := by
        rw [hc1]; decide
      rw [if_neg hc1n, hfil, if_neg (by decide),
        if_pos (by simpa using htag)]
    rw [hcl]
  refine ⟨?_, rfl, rfl⟩
  rw [mainRun_completed args api igs tid hig htid hlen hroot, putsOf_pre_append,
    filterMap_filter_id _ (fun e u h => processEntry_id _ _ _ _ _ _ h) m.id,
    huniq]
  simp [List.filterMap_cons, hpe]

theorem c5_witness :
    (putsOf (Radarr.mainRun ⟨"t", some [], "/new", none⟩
        ⟨[⟨1, "Dune", "/old", none, "/old/Dune", some [5]⟩],
          [⟨5, "t"⟩], [⟨7, "/new"⟩]⟩)).filter (fun u => u.entry.id == 1)
      = [Radarr.update_movie_root_folder
          ⟨1, "Dune", "/old", none, "/old/Dune", some [5]⟩ 5 "/new"] :=
  (c5_eligible_gets_one_update ⟨"t", some [], "/new", none⟩
      ⟨[⟨1, "Dune", "/old", none, "/old/Dune", some [5]⟩],
        [⟨5, "t"⟩], [⟨7, "/new"⟩]⟩
      [] 5 ⟨1, "Dune", "/old", none, "/old/Dune", some [5]⟩
      rfl rfl rfl rfl rfl (by decide) (by decide) (by decide) (by decide)).1

end ArrTagMove
